import Mathlib

/-!
Shallow embedding of the Secret Network n8n node's transaction pipeline and
resource handlers, together with proofs checking the repository's
specification against the code.

Bytes are modelled as `List Nat` (each entry a value below 256 where it
matters); the Node.js `crypto` and `secp256k1` library primitives (sha256,
ripemd160, publicKeyCreate, ecdsaSign) and the n8n `httpRequest` helper are
external to the repository and enter as function parameters.  JavaScript
strings are Lean `String`s, `Buffer.from(s)` is the character list of `s`,
and `JSON.stringify` of the fixed object literals appearing in the source is
embedded as fixed-format string builders that keep the literal's key order.
-/

namespace SecretNetworkNode

/-! ## Hex encoding and decoding (Buffer `hex` conversions) -/

/-- Lower-case hex digit for a value below 16, as produced by
`Buffer.prototype.toString('hex')`. -/
def hexDigitChar (n : Nat) : Char :=
  if n < 10 then Char.ofNat (48 + n) else Char.ofNat (87 + n)

/-- Two hex characters of one byte. -/
def byteHexChars (b : Nat) : List Char :=
  [hexDigitChar (b / 16), hexDigitChar (b % 16)]

/-- Hex characters of a byte sequence, in order. -/
def bytesToHexChars : List Nat → List Char
  | [] => []
  | b :: bs => byteHexChars b ++ bytesToHexChars bs

/-- Numeric value of one hex character (0 for non-hex input, which
`Buffer.from(s, 'hex')` never feeds us on well-formed keys). -/
def hexCharVal (c : Char) : Nat :=
  if c.isDigit then c.toNat - 48
  else if 97 ≤ c.toNat ∧ c.toNat ≤ 102 then c.toNat - 87
  else if 65 ≤ c.toNat ∧ c.toNat ≤ 70 then c.toNat - 55
  else 0

/-- Byte list of a hex character list, pairing characters as
`Buffer.from(s, 'hex')` does. -/
def hexDecodeChars : List Char → List Nat
  | c1 :: c2 :: rest => (hexCharVal c1 * 16 + hexCharVal c2) :: hexDecodeChars rest
  | _ => []

/-- Embeds `Buffer.from(privateKey, 'hex')`. -/
def hexDecode (s : String) : List Nat :=
  hexDecodeChars s.data

/-! ## Base64 encoding (Buffer `base64` conversion) -/

/-- The base64 alphabet. -/
def base64Alphabet : List Char :=
  ("ABCDEFGHIJKLMNOPQRSTUVWXYZabcdefghijklmnopqrstuvwxyz0123456789+/").data

/-- Character of one 6-bit group. -/
def base64Char (n : Nat) : Char :=
  base64Alphabet.getD n ('A')

/-- Base64 characters of a byte sequence, processing three input bytes per
four output characters, with `=` padding, as `Buffer.prototype.toString('base64')`. -/
def base64Chunks : List Nat → List Char
  | [] => []
  | [b1] => [base64Char (b1 / 4), base64Char (b1 % 4 * 16), '=', '=']
  | [b1, b2] => [base64Char (b1 / 4), base64Char (b1 % 4 * 16 + b2 / 16),
      base64Char (b2 % 16 * 4), '=']
  | b1 :: b2 :: b3 :: rest =>
      base64Char (b1 / 4) :: base64Char (b1 % 4 * 16 + b2 / 16) ::
        base64Char (b2 % 16 * 4 + b3 / 64) :: base64Char (b3 % 64) :: base64Chunks rest

/-- Embeds `Buffer.from(bytes).toString('base64')`. -/
def base64Encode (bs : List Nat) : String :=
  String.mk (base64Chunks bs)

/-- Embeds `Buffer.from(string)`: the byte sequence of a string (code points;
the JSON payloads at hand are ASCII, where this agrees with UTF-8). -/
def strBytes (s : String) : List Nat :=
  s.data.map Char.toNat

/-! ## JavaScript helpers -/

/-- Embeds the JavaScript expression `v || d` for an optional string `v`:
`undefined` and the empty string (the falsy strings) are replaced by the
default, any other string — including "0" — is kept. -/
def jsOrString (v : Option String) (d : String) : String :=
  match v with
  | none => d
  | some s => if s = ("") then d else s

/-- Computable ceiling of a rational, embedding JavaScript `Math.ceil`
(on the exact rational value; see `jsCeil_eq_ceil`). -/
def jsCeil (q : ℚ) : Int :=
  -((-q).num / ((-q).den : Int))

/-! ## parseFloat and the gas-price arithmetic -/

/-- Splits the leading decimal digits off a character list. -/
def splitDigits : List Char → List Nat × List Char
  | [] => ([], [])
  | c :: cs =>
      if c.isDigit then
        let r := splitDigits cs
        ((c.toNat - 48) :: r.1, r.2)
      else ([], c :: cs)

/-- Value of a digit list, most significant first. -/
def natOfDigits (ds : List Nat) : Nat :=
  ds.foldl (fun a d => 10 * a + d) 0

/-- Embeds JavaScript `parseFloat` on inputs of the shape
`<digits>[.<digits>]<anything>` (the gas-price strings this node receives),
as an exact rational.  Signs, exponents and leading whitespace do not occur
in these inputs and are not modelled. -/
def parseFloatQ (s : String) : ℚ :=
  let ip := splitDigits s.data
  match ip.2 with
  | '.' :: rest =>
      let fp := splitDigits rest
      (natOfDigits ip.1 : ℚ) + (natOfDigits fp.1 : ℚ) / ((10 : ℚ) ^ fp.1.length)
  | _ => (natOfDigits ip.1 : ℚ)

/-- Removes the first occurrence of `pat` from a character list. -/
def removeFirstOccur (pat : List Char) : List Char → List Char
  | [] => []
  | c :: rest =>
      if pat.isPrefixOf (c :: rest) then (c :: rest).drop pat.length
      else c :: removeFirstOccur pat rest

/-- Embeds `gasPrice.replace('uscrt', '')` (string-pattern `replace` rewrites
only the first occurrence). -/
def stripUscrt (s : String) : String :=
  String.mk (removeFirstOccur (("uscrt").data) s.data)

/-- Embeds `Math.ceil(gasLimit * parseFloat(gasPrice.replace('uscrt', '')))`
from `signAndBroadcastTx`, on the exact rational value of the price. -/
def feeAmountInt (gasLimit : Nat) (gasPrice : String) : Int :=
  jsCeil ((gasLimit : ℚ) * parseFloatQ (stripUscrt gasPrice))

/-- The fee amount string placed into the auth info by `signAndBroadcastTx`. -/
def feeAmount (gasLimit : Nat) (gasPrice : String) : String :=
  toString (feeAmountInt gasLimit gasPrice)

/-- The fee denomination used by `signAndBroadcastTx`. -/
def feeDenom : String :=
  "uscrt"

/-! ## Address derivation -/

/-- Embeds `getAddressFromPubKey`:

```
const hash = createHash('sha256').update(pubKey).digest();
const ripemd = createHash('ripemd160').update(hash).digest();
return 'secret' + Buffer.from(ripemd).toString('hex').substring(0, 40);
```

The two digests are the Node `crypto` primitives, passed as parameters. -/
def getAddressFromPubKey (sha256 ripemd160 : List Nat → List Nat)
    (pubKey : List Nat) : String :=
  ("secret") ++ String.mk ((bytesToHexChars (ripemd160 (sha256 pubKey))).take 40)

/-! ## Account lookup -/

/-- The JSON account object of the auth endpoint's response; either field may
be absent. -/
structure AccountObj where
  sequence : Option String
  account_number : Option String
deriving DecidableEq

/-- The auth endpoint's response; the `account` member may be absent. -/
structure AccountResponse where
  account : Option AccountObj
deriving DecidableEq

/-- Failures that can surface from the embedded pipeline.  The code has no
`AccountNotFound`, `BroadcastFailure` or `ConflictingTimeout` condition; an
absent `account` member surfaces as the JavaScript `TypeError` thrown by
`accountResponse.account.sequence`, and a failed `httpRequest` as the
transport error the helper throws. -/
inductive PipelineErr where
  | typeError (msg : String)
  | transport (msg : String)
deriving DecidableEq

/-- Embeds the account-field extraction of `signAndBroadcastTx`:

```
const sequence = accountResponse.account.sequence || '0';
const accountNumber = accountResponse.account.account_number || '0';
```

Reading `.sequence` off an absent `account` throws a `TypeError`; present
fields run through `|| '0'`. -/
def readAccountFields (resp : AccountResponse) : Except PipelineErr (String × String) :=
  match resp.account with
  | none => .error (.typeError ("Cannot read properties of undefined"))
  | some acct => .ok (jsOrString acct.sequence ("0"), jsOrString acct.account_number ("0"))

/-! ## Transaction JSON construction -/

/-- JSON string quoting of the field values at hand (base64, hex, bech32 and
decimal strings, which need no escaping). -/
def jsonQuote (s : String) : String :=
  ("\"") ++ s ++ ("\"")

/-- Embeds `JSON.stringify(txBody)` for the tx body literal of
`signAndBroadcastTx`, keys in literal order. -/
def txBodyJson (sender contract msgB64 : String) : String :=
  "\x7b\"messages\":[\x7b\"@type\":\"/secret.compute.v1beta1.MsgExecuteContract\",\"sender\":\""
    ++ sender ++ "\",\"contract\":\"" ++ contract ++ "\",\"msg\":\"" ++ msgB64
    ++ "\",\"sent_funds\":[]\x7d],\"memo\":\"\",\"timeout_height\":\"0\",\"extension_options\":[],\"non_critical_extension_options\":[]\x7d"

/-- Embeds `JSON.stringify(authInfo)` for the auth info literal of
`signAndBroadcastTx`, keys in literal order. -/
def authInfoJson (pubKeyB64 sequence : String) (gasLimit : Nat) (gasPrice : String) : String :=
  "\x7b\"signer_infos\":[\x7b\"public_key\":\x7b\"@type\":\"/cosmos.crypto.secp256k1.PubKey\",\"key\":\""
    ++ pubKeyB64
    ++ "\"\x7d,\"mode_info\":\x7b\"single\":\x7b\"mode\":\"SIGN_MODE_DIRECT\"\x7d\x7d,\"sequence\":\""
    ++ sequence ++ "\"\x7d],\"fee\":\x7b\"amount\":[\x7b\"denom\":\"uscrt\",\"amount\":\""
    ++ feeAmount gasLimit gasPrice ++ "\"\x7d],\"gas_limit\":\"" ++ toString gasLimit
    ++ "\",\"payer\":\"\",\"granter\":\"\"\x7d\x7d"

/-- Embeds `JSON.stringify(signDoc)` for the sign-doc literal of
`signAndBroadcastTx`, keys in literal order: `body_bytes`,
`auth_info_bytes`, `chain_id`, `account_number`. -/
def signDocJson (bodyBytes authInfoBytes chainId accountNumber : String) : String :=
  "\x7b\"body_bytes\":\"" ++ bodyBytes ++ "\",\"auth_info_bytes\":\"" ++ authInfoBytes
    ++ "\",\"chain_id\":\"" ++ chainId ++ "\",\"account_number\":\"" ++ accountNumber
    ++ "\"\x7d"

/-- The byte sequence of the sign doc computed by `signAndBroadcastTx` from
the tx body JSON, auth info JSON, chain id and account number
(`Buffer.from(JSON.stringify(signDoc))`). -/
def computeSignBytes (bodyJson authJson chainId accountNumber : String) : List Nat :=
  strBytes (signDocJson (base64Encode (strBytes bodyJson))
    (base64Encode (strBytes authJson)) chainId accountNumber)

/-- The signed transaction envelope (`txRaw` in the source). -/
structure TxRaw where
  body_bytes : String
  auth_info_bytes : String
  signatures : List String
deriving DecidableEq

/-- Embeds the `txRaw` construction and signing of `signAndBroadcastTx`: the
body and auth info are serialized and base64 encoded, the sign doc is
serialized and sha256-hashed, `secp256k1.ecdsaSign` signs the hash, and the
signatures array is replaced by the single base64 signature. -/
def buildSignedTxRaw (sha256 : List Nat → List Nat)
    (ecdsaSign : List Nat → List Nat → List Nat)
    (bodyJson authJson chainId accountNumber : String)
    (privKey : List Nat) : TxRaw :=
  let bodyB64 := base64Encode (strBytes bodyJson)
  let authB64 := base64Encode (strBytes authJson)
  let hash := sha256 (computeSignBytes bodyJson authJson chainId accountNumber)
  let signature := ecdsaSign hash privKey
  { body_bytes := bodyB64, auth_info_bytes := authB64,
    signatures := [base64Encode signature] }

/-- Comma-joined JSON string list. -/
def jsonStringList : List String → String
  | [] => ""
  | [s] => jsonQuote s
  | s :: rest => jsonQuote s ++ (",") ++ jsonStringList rest

/-- Embeds `JSON.stringify(txRaw)`. -/
def txRawJson (r : TxRaw) : String :=
  "\x7b\"body_bytes\":\"" ++ r.body_bytes ++ "\",\"auth_info_bytes\":\""
    ++ r.auth_info_bytes ++ "\",\"signatures\":[" ++ jsonStringList r.signatures
    ++ "]\x7d"

/-! ## The broadcast request and the full pipeline -/

/-- Body of the POST to `/cosmos/tx/v1beta1/txs`. -/
structure BroadcastBody where
  tx_bytes : String
  mode : String
deriving DecidableEq

/-- The broadcast endpoint's JSON response as the node reads it. -/
structure BroadcastResp where
  code : Nat
  txhash : String
  raw_log : String
deriving DecidableEq

/-- Network credentials of the node (`chainId` may be absent; the pipeline
applies `credentials.chainId || 'secret-4'`). -/
structure Credentials where
  baseUrl : String
  chainId : Option String
deriving DecidableEq

/-- Embeds `signAndBroadcastTx`.  The crypto primitives and the two
`httpRequest` calls (account GET, broadcast POST) are parameters; a transport
failure of either request is the `.error` of that parameter.  The broadcast
response is returned as-is: the function inspects neither `code` nor
`raw_log`. -/
def signAndBroadcastTx (sha256 ripemd160 pubkeyCreate : List Nat → List Nat)
    (ecdsaSign : List Nat → List Nat → List Nat)
    (fetchAccount : String → Except PipelineErr AccountResponse)
    (broadcast : BroadcastBody → Except PipelineErr BroadcastResp)
    (credentials : Credentials) (contractAddress : String) (executeMsg : String)
    (privateKey : String) (gasLimit : Nat) (gasPrice : String) :
    Except PipelineErr BroadcastResp := do
  let privKeyBuffer := hexDecode privateKey
  let pubKey := pubkeyCreate privKeyBuffer
  let address := getAddressFromPubKey sha256 ripemd160 pubKey
  let accountResponse ← fetchAccount
    (credentials.baseUrl ++ ("/cosmos/auth/v1beta1/accounts/") ++ address)
  let fields ← readAccountFields accountResponse
  let sequence := fields.1
  let accountNumber := fields.2
  let bodyJson := txBodyJson address contractAddress (base64Encode (strBytes executeMsg))
  let authJson := authInfoJson (base64Encode pubKey) sequence gasLimit gasPrice
  let chainId := jsOrString credentials.chainId ("secret-4")
  let raw := buildSignedTxRaw sha256 ecdsaSign bodyJson authJson chainId accountNumber
    privKeyBuffer
  let resp ← broadcast
    { tx_bytes := base64Encode (strBytes (txRawJson raw)), mode := ("BROADCAST_MODE_SYNC") }
  return resp

/-! ## IBC transfer (executeIbcOperationsOperations, case 'ibcTransfer') -/

/-- A JSON value that is either a number or a string, as the
`timeout_timestamp` field produced by the ternary
`timeoutHeight === 0 ? (Date.now() + 600000) * 1000000 : '0'`. -/
inductive TimestampVal where
  | num (n : Nat)
  | str (s : String)
deriving DecidableEq

/-- The height-based timeout object
`\x7b revision_number: '0', revision_height: timeoutHeight.toString() \x7d`. -/
structure TimeoutHeightObj where
  revision_number : String
  revision_height : String
deriving DecidableEq

/-- The IBC `MsgTransfer` message object (the `token` parameter is carried
opaquely).  `timeout_height` is `none` when the source sets it to
`undefined`, in which case `JSON.stringify` omits the field. -/
structure IbcTransferMsg where
  source_port : String
  source_channel : String
  token : String
  sender : String
  receiver : String
  timeout_height : Option TimeoutHeightObj
  timeout_timestamp : TimestampVal
deriving DecidableEq

/-- Failures that can surface from the IBC operations handler.  The code has
no `ConflictingTimeout` condition: the only throw sites are the unknown
operation check and the `httpRequest` helper. -/
inductive IbcOpErr where
  | transport (msg : String)
  | unknownOperation (msg : String)
deriving DecidableEq

/-- Embeds the message construction of the `ibcTransfer` case:

```
timeout_height: timeoutHeight > 0
  ? \x7b revision_number: '0', revision_height: timeoutHeight.toString() \x7d
  : undefined,
timeout_timestamp: timeoutHeight === 0 ? (Date.now() + 600000) * 1000000 : '0',
```

`nowMs` stands for `Date.now()`. -/
def buildIbcTransferMsg (sourcePort sourceChannel token sender receiver : String)
    (timeoutHeight : Int) (nowMs : Nat) : IbcTransferMsg :=
  { source_port := sourcePort, source_channel := sourceChannel, token := token,
    sender := sender, receiver := receiver,
    timeout_height :=
      if timeoutHeight > 0 then some { revision_number := "0", revision_height := toString timeoutHeight }
      else none,
    timeout_timestamp :=
      if timeoutHeight = 0 then .num ((nowMs + 600000) * 1000000) else .str ("0") }

/-- Embeds the `ibcTransfer` case of `executeIbcOperationsOperations`: the
message is built from the node parameters, wrapped into an unsigned tx body,
serialized and POSTed to the broadcast endpoint (`net` stands for that
`httpRequest` call, receiving the constructed message), and the response is
returned as-is.  No validation sits between parameter readout and the
request: there is no branch that could raise a `ConflictingTimeout`. -/
def executeIbcTransferOp (net : IbcTransferMsg → Except IbcOpErr BroadcastResp)
    (sourcePort sourceChannel token sender receiver : String)
    (timeoutHeight : Int) (nowMs : Nat) : Except IbcOpErr BroadcastResp :=
  net (buildIbcTransferMsg sourcePort sourceChannel token sender receiver timeoutHeight nowMs)

/-! ## The per-item execution loop (executeSnip20TokensOperations and the
other resource handlers share this shape) -/

/-- The `json` member of a returned item: either the operation's result or
the object `\x7b error: error.message \x7d` built in the catch branch. -/
inductive ItemJson (α : Type) where
  | success (val : α)
  | errObj (message : String)
deriving DecidableEq

/-- One entry of `returnData`, carrying `pairedItem: \x7b item: i \x7d`. -/
structure OutItem (α : Type) where
  json : ItemJson α
  pairedItem : Nat
deriving DecidableEq

/-- Embeds the `for` loop of the resource handlers, `count` items starting at
index `i`: each iteration runs the handler for the current item inside
`try`; on a throw, `continueOnFail()` decides between pushing
`\x7b json: \x7b error: error.message \x7d, pairedItem: \x7b item: i \x7d \x7d`
and rethrowing (which aborts the whole batch). -/
def runFrom (cof : Bool) (handler : Nat → Except String α) :
    Nat → Nat → Except String (List (OutItem α))
  | 0, _ => .ok []
  | c + 1, i =>
    match handler i with
    | .ok r => (runFrom cof handler c (i + 1)).map
        (fun rest => { json := .success r, pairedItem := i } :: rest)
    | .error e =>
        if cof then (runFrom cof handler c (i + 1)).map
          (fun rest => { json := .errObj e, pairedItem := i } :: rest)
        else .error e

/-- The resource handler loop over items `0 .. n-1`. -/
def runItems (cof : Bool) (handler : Nat → Except String α) (n : Nat) :
    Except String (List (OutItem α)) :=
  runFrom cof handler n 0

/-- The entry the loop records for index `i` when it does not abort. -/
def stepEntry (handler : Nat → Except String α) (i : Nat) : OutItem α :=
  match handler i with
  | .ok r => { json := .success r, pairedItem := i }
  | .error e => { json := .errObj e, pairedItem := i }

/-- The entries for `count` indices starting at `i`. -/
def entriesFrom (handler : Nat → Except String α) : Nat → Nat → List (OutItem α)
  | 0, _ => []
  | c + 1, i => stepEntry handler i :: entriesFrom handler c (i + 1)

/-! ## Concurrent submissions sharing one signing address

Environment model for the sequence-monotonicity claim.  `signAndBroadcastTx`
makes exactly two network calls — the account GET, whose response carries the
address's current sequence, and the broadcast POST, whose submitted auth info
carries the fetched sequence — and holds no lock or shared state between
them.  Per the spec, the network increments the account sequence by exactly 1
for each accepted transaction and answers a submission whose sequence is not
current with a sequence-mismatch result code (code 32 in the Cosmos SDK)
instead of accepting it. -/

/-- The network-side account state for one address. -/
structure ChainAccount where
  seq : Nat
deriving DecidableEq

/-- The account GET of one pipeline instance: reports the current sequence. -/
def fetchSequence (c : ChainAccount) : Nat :=
  c.seq

/-- The broadcast POST of one pipeline instance, submitting a transaction
signed at sequence `txSeq`: the network accepts it (code 0, sequence
increments) exactly when `txSeq` is current, and otherwise leaves the state
unchanged and answers with the sequence-mismatch code 32. -/
def broadcastAtSequence (c : ChainAccount) (txSeq : Nat) : ChainAccount × BroadcastResp :=
  if txSeq = c.seq then ({ seq := c.seq + 1 }, { code := 0, txhash := "TX", raw_log := "ok" })
  else (c, { code := 32, txhash := "TX", raw_log := "account sequence mismatch" })

/-- Two concurrent `signAndBroadcastTx` calls for the same address, in the
interleaving where both account GETs complete before either broadcast POST
is sent — nothing in the code forbids this interleaving, since the pipeline
takes no per-address lock.  Each instance returns its broadcast response
verbatim as `.ok` (see `signAndBroadcastTx`, which never inspects the
response code). -/
def twoConcurrentSubmissions (c0 : ChainAccount) :
    Except PipelineErr BroadcastResp × Except PipelineErr BroadcastResp :=
  let s1 := fetchSequence c0
  let s2 := fetchSequence c0
  let step1 := broadcastAtSequence c0 s1
  let step2 := broadcastAtSequence step1.1 s2
  (.ok step1.2, .ok step2.2)

/-! ## The accounts resource, getBalance operation -/

/-- One entry of the bank balances array. -/
structure Balance where
  denom : String
  amount : String
deriving DecidableEq

/-- The bank balances response as the handler reads it: the `balances`
member may be absent, and `pagination` stands for the response's remaining
members, passed through untouched. -/
structure BalancesResponse where
  balances : Option (List Balance)
  pagination : Option String
deriving DecidableEq

/-- Embeds the post-processing of the `getBalance` case:

```
if (denom && result.balances) \x7b
  result.balances = result.balances.filter((balance) => balance.denom === denom);
\x7d
```

An empty `denom` is falsy, as is an absent `balances` member. -/
def getBalanceResult (denom : String) (result : BalancesResponse) : BalancesResponse :=
  if denom = ("") then result
  else
    match result.balances with
    | none => result
    | some bs => { result with balances := some (bs.filter (fun b => b.denom == denom)) }

/-! ## Helper lemmas -/

theorem bytesToHexChars_length (bs : List Nat) :
    (bytesToHexChars bs).length = 2 * bs.length := by
  induction bs with
  | nil => rfl
  | cons b bs ih =>
    simp [bytesToHexChars, byteHexChars, ih]
    omega

theorem jsCeil_eq_ceil (q : ℚ) : jsCeil q = ⌈q⌉ := by
  rw [jsCeil, ← Rat.floor_def, Int.floor_neg, neg_neg]

/-! ## Claim C1 -/

/-- Claim C1: for every public key byte sequence, `getAddressFromPubKey` is
deterministic, equals the textual encoding of the truncated second digest of
the first digest with the network prefix `secret`, and — given that a
ripemd160 digest has 20 bytes — is a string of fixed length 46. -/
theorem getAddressFromPubKey_deterministic_fixed_length
    (sha256 ripemd160 : List Nat → List Nat)
    (hlen : ∀ x, (ripemd160 x).length = 20) (pubKey : List Nat) :
    getAddressFromPubKey sha256 ripemd160 pubKey = getAddressFromPubKey sha256 ripemd160 pubKey
    ∧ getAddressFromPubKey sha256 ripemd160 pubKey =
        ("secret") ++ String.mk ((bytesToHexChars (ripemd160 (sha256 pubKey))).take 40)
    ∧ (getAddressFromPubKey sha256 ripemd160 pubKey).length = 46 := by
  refine ⟨rfl, rfl, ?_⟩
  have h1 : (bytesToHexChars (ripemd160 (sha256 pubKey))).length = 40 := by
    rw [bytesToHexChars_length, hlen]
  have h2 : (String.mk ((bytesToHexChars (ripemd160 (sha256 pubKey))).take 40)).length = 40 := by
    show ((bytesToHexChars (ripemd160 (sha256 pubKey))).take 40).length = 40
    rw [List.length_take, h1]
    omega
  rw [getAddressFromPubKey, String.length_append, h2]
  rfl

/-- Witness for C1 at a concrete public key and digest functions of the
correct output lengths. -/
theorem getAddressFromPubKey_fixed_length_witness :
    (∀ x : List Nat, ((fun _ : List Nat => List.replicate 20 0) x).length = 20)
    ∧ (getAddressFromPubKey (fun _ => List.replicate 32 1)
        (fun _ : List Nat => List.replicate 20 0) [2, 3]).length = 46 :=
  ⟨fun _ => by simp,
    (getAddressFromPubKey_deterministic_fixed_length (fun _ => List.replicate 32 1)
      (fun _ : List Nat => List.replicate 20 0) (fun _ => by simp) [2, 3]).2.2⟩

/-! ## Claim C2 -/

/-- Claim C2: the sign-doc byte sequence computed from a
(body, authInfo, chainId, accountNumber) tuple is byte-identical across
invocations on identical inputs — the serialization is a fixed-key-order
function of the tuple, with no incidental variance. -/
theorem computeSignBytes_deterministic (bodyJson authJson chainId accountNumber
    bodyJson2 authJson2 chainId2 accountNumber2 : String)
    (hb : bodyJson = bodyJson2) (ha : authJson = authJson2)
    (hc : chainId = chainId2) (hn : accountNumber = accountNumber2) :
    computeSignBytes bodyJson authJson chainId accountNumber =
      computeSignBytes bodyJson2 authJson2 chainId2 accountNumber2 := by
  subst hb; subst ha; subst hc; subst hn; rfl

/-- Witness for C2 at a concrete input tuple. -/
theorem computeSignBytes_deterministic_witness :
    (("b") = ("b")) ∧ computeSignBytes ("b") ("a") ("c") ("0")
      = computeSignBytes ("b") ("a") ("c") ("0") :=
  ⟨rfl, computeSignBytes_deterministic _ _ _ _ _ _ _ _ rfl rfl rfl rfl⟩

/-! ## Claim C3 -/

/-- Claim C3 counterexample: for the concrete account response whose account
record lacks the sequence field, the pipeline does not fail at all — it
silently substitutes sequence "0" and succeeds, contradicting the claim that
a missing sequence field is part of an `AccountNotFound` error condition. -/
theorem readAccountFields_missing_sequence_not_error :
    readAccountFields { account := some { sequence := none, account_number := some ("7") } }
      = .ok (("0"), ("7"))
    ∧ ∀ e, readAccountFields { account := some { sequence := none, account_number := some ("7") } }
      ≠ .error e := by
  refine ⟨rfl, ?_⟩
  intro e h
  simp [readAccountFields, jsOrString] at h

/-- Claim C3 amended: the code has no `AccountNotFound` condition.  A
response with no account record throws a JavaScript `TypeError`; an account
record with a missing (or empty) sequence field is silently given sequence
"0" by the `|| '0'` default and the pipeline proceeds; any other explicit
sequence string — "0" included — is used as returned. -/
theorem readAccountFields_defaults (resp : AccountResponse) :
    (resp.account = none →
      readAccountFields resp = .error (.typeError ("Cannot read properties of undefined")))
    ∧ (∀ acct, resp.account = some acct → acct.sequence = none →
      readAccountFields resp = .ok (("0"), jsOrString acct.account_number ("0")))
    ∧ (∀ acct s, resp.account = some acct → acct.sequence = some s → s ≠ ("") →
      readAccountFields resp = .ok (s, jsOrString acct.account_number ("0"))) := by
  refine ⟨fun h => by simp [readAccountFields, h], ?_, ?_⟩
  · intro acct h hs
    simp [readAccountFields, h, hs, jsOrString]
  · intro acct s h hs hne
    simp [readAccountFields, h, hs, jsOrString, hne]

/-- Witness for the amended C3 at concrete responses. -/
theorem readAccountFields_defaults_witness :
    (({ account := none } : AccountResponse).account = none)
    ∧ readAccountFields { account := none }
        = .error (.typeError ("Cannot read properties of undefined"))
    ∧ readAccountFields { account := some { sequence := none, account_number := some ("9") } }
        = .ok (("0"), ("9")) := by
  refine ⟨rfl, (readAccountFields_defaults { account := none }).1 rfl, ?_⟩
  have h := (readAccountFields_defaults
    { account := some { sequence := none, account_number := some ("9") } }).2.1
    { sequence := none, account_number := some ("9") } rfl rfl
  exact h.trans (by rfl)

/-! ## Claim C4 -/

/-- Claim C4: with gas price "0.1uscrt" and gas limit 200000 the fee placed
into the auth info is amount "20000" of denomination "uscrt"; in general the
fee amount is the ceiling of the numeric gas price multiplied by the gas
limit (on the exact rational value of the price string; at this scenario the
JavaScript double computes the same 20000). -/
theorem feeAmount_scenario_and_ceiling :
    feeAmount 200000 ("0.1uscrt") = ("20000") ∧ feeDenom = ("uscrt")
    ∧ ∀ (g : Nat) (p : String),
        feeAmountInt g p = ⌈(g : ℚ) * parseFloatQ (stripUscrt p)⌉ := by
  refine ⟨?_, rfl, fun g p => jsCeil_eq_ceil _⟩
  have hs : stripUscrt ("0.1uscrt") = ("0.1") := by decide
  have hp : parseFloatQ ("0.1")
      = ((0 : ℕ) : ℚ) + ((1 : ℕ) : ℚ) / ((10 : ℚ) ^ (1 : ℕ)) := rfl
  have hval : ((200000 : ℕ) : ℚ) * (((0 : ℕ) : ℚ) + ((1 : ℕ) : ℚ) / ((10 : ℚ) ^ (1 : ℕ)))
      = ((20000 : ℤ) : ℚ) := by norm_num
  have hint : feeAmountInt 200000 ("0.1uscrt") = 20000 := by
    rw [feeAmountInt, hs, hp, jsCeil_eq_ceil, hval, Int.ceil_intCast]
  rw [feeAmount, hint]
  decide

/-! ## Claim C5 -/

theorem base64Encode_ne_empty (bs : List Nat) (h : bs ≠ []) : base64Encode bs ≠ ("") := by
  intro hc
  have hdata : base64Chunks bs = [] := congrArg String.data hc
  cases bs with
  | nil => exact h rfl
  | cons b1 t1 =>
    cases t1 with
    | nil => simp [base64Chunks] at hdata
    | cons b2 t2 =>
      cases t2 with
      | nil => simp [base64Chunks] at hdata
      | cons b3 rest => simp [base64Chunks] at hdata

/-- Claim C5: the signed envelope the pipeline submits carries a signatures
list of exactly one element, and — the secp256k1 library returning non-empty
(64-byte) signatures — that element is a non-empty signature string. -/
theorem buildSignedTxRaw_single_nonempty_signature
    (sha256 : List Nat → List Nat) (ecdsaSign : List Nat → List Nat → List Nat)
    (hsig : ∀ h k, ecdsaSign h k ≠ [])
    (bodyJson authJson chainId accountNumber : String) (privKey : List Nat) :
    (buildSignedTxRaw sha256 ecdsaSign bodyJson authJson chainId accountNumber
      privKey).signatures.length = 1
    ∧ ∀ s ∈ (buildSignedTxRaw sha256 ecdsaSign bodyJson authJson chainId accountNumber
        privKey).signatures, s ≠ ("") := by
  refine ⟨rfl, ?_⟩
  intro s hs
  simp only [buildSignedTxRaw, List.mem_singleton] at hs
  subst hs
  exact base64Encode_ne_empty _ (hsig _ _)

/-- Witness for C5 at concrete inputs, with a signing function of non-empty
output. -/
theorem buildSignedTxRaw_single_nonempty_signature_witness :
    (∀ h k : List Nat, (fun _ _ : List Nat => [1, 2]) h k ≠ ([] : List Nat))
    ∧ (buildSignedTxRaw (fun _ => [0]) (fun _ _ : List Nat => [1, 2]) ("b") ("a") ("c") ("0")
        [5]).signatures.length = 1
    ∧ ∀ s ∈ (buildSignedTxRaw (fun _ => [0]) (fun _ _ : List Nat => [1, 2]) ("b") ("a") ("c")
        ("0") [5]).signatures, s ≠ ("") :=
  ⟨fun _ _ => by simp,
    (buildSignedTxRaw_single_nonempty_signature (fun _ => [0]) (fun _ _ : List Nat => [1, 2])
      (fun _ _ => by simp) ("b") ("a") ("c") ("0") [5]).1,
    (buildSignedTxRaw_single_nonempty_signature (fun _ => [0]) (fun _ _ : List Nat => [1, 2])
      (fun _ _ => by simp) ("b") ("a") ("c") ("0") [5]).2⟩

/-! ## Claim C6 -/

/-- Claim C6 counterexample: at the claim's scenario input `timeoutHeight = 0`
the IBC transfer operation raises no error at all — no `ConflictingTimeout`
condition exists in the handler — and silently builds a message carrying only
the timestamp-based timeout: the height-based field is absent, so the two
timeout forms can never be supplied together in the first place. -/
theorem ibcTransfer_timeout_zero_not_error :
    executeIbcTransferOp (fun _ => .ok { code := 0, txhash := ("H"), raw_log := ("") })
      ("transfer") ("channel-0") ("tok") ("s") ("r") 0 1000
      = .ok { code := 0, txhash := ("H"), raw_log := ("") }
    ∧ (buildIbcTransferMsg ("transfer") ("channel-0") ("tok") ("s") ("r") 0 1000).timeout_height
      = none
    ∧ (buildIbcTransferMsg ("transfer") ("channel-0") ("tok") ("s") ("r") 0 1000).timeout_timestamp
      = .num ((1000 + 600000) * 1000000) :=
  ⟨rfl, rfl, rfl⟩

/-- Claim C6 amended: the IBC transfer accepts a single `timeoutHeight`
parameter and never raises a `ConflictingTimeout`; it sets the height-based
timeout exactly when `timeoutHeight > 0` (with timestamp "0"), and the
timestamp-based timeout when `timeoutHeight = 0` (with no height field), so
the two timeout forms are never both set and the operation returns the
network response for every input. -/
theorem ibcTransfer_single_timeout_no_conflict (port channel token sender receiver : String)
    (h : Int) (nowMs : Nat) :
    (h > 0 → (buildIbcTransferMsg port channel token sender receiver h nowMs).timeout_height
        = some { revision_number := "0", revision_height := toString h }
      ∧ (buildIbcTransferMsg port channel token sender receiver h nowMs).timeout_timestamp
        = .str ("0"))
    ∧ (h = 0 → (buildIbcTransferMsg port channel token sender receiver h nowMs).timeout_height
        = none
      ∧ (buildIbcTransferMsg port channel token sender receiver h nowMs).timeout_timestamp
        = .num ((nowMs + 600000) * 1000000))
    ∧ ¬((buildIbcTransferMsg port channel token sender receiver h nowMs).timeout_height ≠ none
      ∧ (buildIbcTransferMsg port channel token sender receiver h nowMs).timeout_timestamp
        ≠ .str ("0"))
    ∧ ∀ r, executeIbcTransferOp (fun _ => .ok r) port channel token sender receiver h nowMs
        = .ok r := by
  refine ⟨?_, ?_, ?_, fun r => rfl⟩
  · intro hpos
    constructor
    · simp [buildIbcTransferMsg, hpos]
    · simp [buildIbcTransferMsg, hpos.ne']
  · intro h0
    subst h0
    exact ⟨rfl, rfl⟩
  · rintro ⟨hh, ht⟩
    by_cases hpos : h > 0
    · exact ht (by simp [buildIbcTransferMsg, hpos.ne'])
    · exact hh (by simp [buildIbcTransferMsg, hpos])

/-- Witness for the amended C6 at concrete heights 0 and 3. -/
theorem ibcTransfer_single_timeout_witness :
    ((0 : Int) = 0) ∧ ((3 : Int) > 0)
    ∧ (buildIbcTransferMsg ("p") ("c") ("t") ("s") ("r") 0 5).timeout_height = none
    ∧ (buildIbcTransferMsg ("p") ("c") ("t") ("s") ("r") 3 5).timeout_timestamp = .str ("0") :=
  ⟨rfl, by decide,
    ((ibcTransfer_single_timeout_no_conflict ("p") ("c") ("t") ("s") ("r") 0 5).2.1 rfl).1,
    ((ibcTransfer_single_timeout_no_conflict ("p") ("c") ("t") ("s") ("r") 3 5).1 (by decide)).2⟩

/-! ## Claim C7 -/

/-- Claim C7 counterexample: a concrete run in which the network's broadcast
response carries the non-zero result code 5 — the pipeline returns that
response as an ordinary success instead of failing with a
`BroadcastFailure`. -/
theorem signAndBroadcastTx_nonzero_code_ok :
    signAndBroadcastTx (fun _ => List.replicate 32 0) (fun _ => List.replicate 20 0)
      (fun _ => List.replicate 33 2) (fun _ _ => List.replicate 64 1)
      (fun _ => .ok { account := some { sequence := some ("5"), account_number := some ("1") } })
      (fun _ => .ok { code := 5, txhash := ("ABC"), raw_log := ("out of gas") })
      { baseUrl := ("http://x"), chainId := none } ("secret1c") ("msg") ("ab") 200000
      ("0.1uscrt")
      = .ok { code := 5, txhash := ("ABC"), raw_log := ("out of gas") } := by
  rfl

/-- Claim C7 amended: the pipeline returns whatever broadcast response the
network sends, verbatim and as a success, without inspecting its result
code — there is no `BroadcastFailure` condition; only a transport-level
failure of either request propagates as an error. -/
theorem signAndBroadcastTx_passthrough
    (sha256 ripemd160 pubkeyCreate : List Nat → List Nat)
    (ecdsaSign : List Nat → List Nat → List Nat)
    (acctResp : AccountResponse) (acct : AccountObj) (hacct : acctResp.account = some acct)
    (credentials : Credentials) (contractAddress executeMsg privateKey : String)
    (gasLimit : Nat) (gasPrice : String) :
    (∀ r : BroadcastResp, signAndBroadcastTx sha256 ripemd160 pubkeyCreate ecdsaSign
      (fun _ => .ok acctResp) (fun _ => .ok r) credentials contractAddress executeMsg
      privateKey gasLimit gasPrice = .ok r)
    ∧ (∀ e, signAndBroadcastTx sha256 ripemd160 pubkeyCreate ecdsaSign
      (fun _ => .ok acctResp) (fun _ => .error e) credentials contractAddress executeMsg
      privateKey gasLimit gasPrice = .error e)
    ∧ (∀ e, signAndBroadcastTx sha256 ripemd160 pubkeyCreate ecdsaSign
      (fun _ => .error e) (fun _ => .ok { code := 0, txhash := (""), raw_log := ("") })
      credentials contractAddress executeMsg privateKey gasLimit gasPrice = .error e) := by
  refine ⟨?_, ?_, ?_⟩ <;> intro x <;>
    simp [signAndBroadcastTx, readAccountFields, hacct, Except.instMonad, Except.bind, Except.pure]

/-- Witness for the amended C7 at concrete inputs. -/
theorem signAndBroadcastTx_passthrough_witness :
    (({ account := some { sequence := some ("1"), account_number := some ("1") } }
        : AccountResponse).account
      = some { sequence := some ("1"), account_number := some ("1") })
    ∧ signAndBroadcastTx (fun _ => [0]) (fun _ => [0]) (fun _ => [0]) (fun _ _ => [1])
        (fun _ => .ok { account := some { sequence := some ("1"), account_number := some ("1") } })
        (fun _ => .ok { code := 0, txhash := ("T"), raw_log := ("") })
        { baseUrl := ("u"), chainId := none } ("c") ("m") ("ab") 1 ("0.1uscrt")
        = .ok { code := 0, txhash := ("T"), raw_log := ("") } :=
  ⟨rfl, (signAndBroadcastTx_passthrough (fun _ => [0]) (fun _ => [0]) (fun _ => [0])
    (fun _ _ => [1]) _ _ rfl { baseUrl := ("u"), chainId := none } ("c") ("m") ("ab") 1
    ("0.1uscrt")).1 _⟩

/-! ## Claim C8 -/

theorem runFrom_true_ok (handler : Nat → Except String α) (c : Nat) :
    ∀ i, runFrom true handler c i = .ok (entriesFrom handler c i) := by
  induction c with
  | zero => intro i; rfl
  | succ c ih =>
    intro i
    cases hh : handler i with
    | ok r => simp [runFrom, entriesFrom, stepEntry, hh, ih, Except.map]
    | error e => simp [runFrom, entriesFrom, stepEntry, hh, ih, Except.map]

theorem entriesFrom_length (handler : Nat → Except String α) (c : Nat) :
    ∀ i, (entriesFrom handler c i).length = c := by
  induction c with
  | zero => intro i; rfl
  | succ c ih => intro i; simp [entriesFrom, ih]

theorem entriesFrom_get (handler : Nat → Except String α) (c : Nat) :
    ∀ i k, k < c → (entriesFrom handler c i).get? k = some (stepEntry handler (i + k)) := by
  induction c with
  | zero => intro i k hk; omega
  | succ c ih =>
    intro i k hk
    cases k with
    | zero => simp [entriesFrom]
    | succ k =>
      have := ih (i + 1) k (by omega)
      simp only [entriesFrom, List.get?]
      rw [this]
      congr 2
      omega

theorem runFrom_false_error (handler : Nat → Except String α) (j : Nat) :
    ∀ (c i : Nat) (e : String), j < c → handler (i + j) = .error e →
    (∀ k, k < j → ∃ r, handler (i + k) = .ok r) →
    runFrom false handler c i = .error e := by
  induction j with
  | zero =>
    intro c i e hc hfail _
    cases c with
    | zero => omega
    | succ c =>
      have hi : handler i = .error e := by simpa using hfail
      simp [runFrom, hi]
  | succ j ih =>
    intro c i e hc hfail hbefore
    cases c with
    | zero => omega
    | succ c =>
      obtain ⟨r, hr⟩ := hbefore 0 (by omega)
      have hr' : handler i = .ok r := by simpa using hr
      have hrec : runFrom false handler c (i + 1) = .error e := by
        refine ih c (i + 1) e (by omega) ?_ ?_
        · rw [show i + 1 + j = i + (j + 1) by omega]
          exact hfail
        · intro k hk
          rw [show i + 1 + k = i + (k + 1) by omega]
          exact hbefore (k + 1) (by omega)
      simp [runFrom, hr', hrec, Except.map]

/-- Claim C8: with partial-failure mode enabled, every item of the batch —
however many of them throw — yields exactly one output entry: each failing
item's entry carries that error's message paired to the item's index, each
succeeding item's entry carries its result, and processing continues through
the whole batch; with the mode disabled, the first failing item (here `j`,
with all items before it succeeding) aborts the whole batch by propagating
the error. -/
theorem runItems_error_handling (handler : Nat → Except String α) (n j : Nat) (e : String)
    (hj : j < n) (hfail : handler j = .error e)
    (hbefore : ∀ k, k < j → ∃ r, handler k = .ok r) :
    (∃ out, runItems true handler n = .ok out ∧ out.length = n
      ∧ (∀ k e2, k < n → handler k = .error e2 →
          out.get? k = some { json := .errObj e2, pairedItem := k })
      ∧ ∀ k r, k < n → handler k = .ok r →
          out.get? k = some { json := .success r, pairedItem := k })
    ∧ runItems false handler n = .error e := by
  constructor
  · refine ⟨entriesFrom handler n 0, runFrom_true_ok handler n 0,
      entriesFrom_length handler n 0, ?_, ?_⟩
    · intro k e2 hk herr
      rw [entriesFrom_get handler n 0 k hk]
      simp [stepEntry, herr]
    · intro k r hk hok
      rw [entriesFrom_get handler n 0 k hk]
      simp [stepEntry, hok]
  · exact runFrom_false_error handler j n 0 e hj (by simpa using hfail)
      (fun k hk => by simpa using hbefore k hk)

/-- Witness for C8 at a concrete five-item batch whose items 1 and 3 both
throw: both failures are reported individually, paired to their indices. -/
theorem runItems_error_handling_witness :
    ((1 : Nat) < 5)
    ∧ ((fun i : Nat => if i = 1 ∨ i = 3 then (.error ("boom") : Except String Nat) else .ok i) 1
      = .error ("boom"))
    ∧ (∃ out, runItems true
        (fun i : Nat => if i = 1 ∨ i = 3 then (.error ("boom") : Except String Nat) else .ok i) 5
        = .ok out ∧ out.length = 5
      ∧ (∀ k e2, k < 5 →
          (fun i : Nat => if i = 1 ∨ i = 3 then (.error ("boom") : Except String Nat) else .ok i) k
            = .error e2 →
          out.get? k = some { json := .errObj e2, pairedItem := k })
      ∧ ∀ k r, k < 5 →
          (fun i : Nat => if i = 1 ∨ i = 3 then (.error ("boom") : Except String Nat) else .ok i) k
            = .ok r →
          out.get? k = some { json := .success r, pairedItem := k })
    ∧ runItems false
        (fun i : Nat => if i = 1 ∨ i = 3 then (.error ("boom") : Except String Nat) else .ok i) 5
        = .error ("boom") := by
  have h := runItems_error_handling
    (fun i : Nat => if i = 1 ∨ i = 3 then (.error ("boom") : Except String Nat) else .ok i) 5 1
    ("boom") (by omega) rfl
    (fun k hk => ⟨k, by simp [show ¬(k = 1 ∨ k = 3) by omega]⟩)
  exact ⟨by omega, rfl, h.1, h.2⟩

/-! ## Claim C9 -/

/-- Claim C9 counterexample: from the concrete network state at sequence 0,
the interleaving in which both submissions fetch the account before either
broadcasts is not prevented — the pipeline takes no lock — and yields two
`.ok` results: the network answers the second submission with the
sequence-mismatch code 32, but the pipeline returns that answer as an
ordinary success response rather than failing with a `BroadcastFailure`. -/
theorem twoConcurrentSubmissions_double_ok :
    twoConcurrentSubmissions { seq := 0 }
      = (.ok { code := 0, txhash := ("TX"), raw_log := ("ok") },
         .ok { code := 32, txhash := ("TX"), raw_log := ("account sequence mismatch") }) := by
  rfl

/-- Claim C9 amended: sequence acquisition is not serialized; in the
interleaving where both submissions for one address fetch before either
broadcasts, both sign against the same sequence, the network accepts exactly
one (code 0) and answers the other with the sequence-mismatch code 32, and
the pipeline returns both as non-error results — the rejection surfaces only
inside the returned response, never as a raised `BroadcastFailure`. -/
theorem twoConcurrentSubmissions_one_mismatch (c0 : ChainAccount) :
    ∃ r1 r2 : BroadcastResp, twoConcurrentSubmissions c0 = (.ok r1, .ok r2)
      ∧ r1.code = 0 ∧ r2.code = 32 ∧ r2.raw_log = ("account sequence mismatch") := by
  refine ⟨{ code := 0, txhash := ("TX"), raw_log := ("ok") },
    { code := 32, txhash := ("TX"), raw_log := ("account sequence mismatch") },
    ?_, rfl, rfl, rfl⟩
  have h2 : ¬(c0.seq = c0.seq + 1) := by omega
  simp [twoConcurrentSubmissions, fetchSequence, broadcastAtSequence, h2]

/-! ## Claim C10 -/

/-- Claim C10: for the accounts resource's getBalance operation, a non-empty
denomination filter applied to a response carrying a balances array keeps
exactly the entries whose denom equals the filter, in their original order
(the filtered list is a sublist), leaving the response's other members
untouched; with an empty filter or no balances array the response is
returned unmodified. -/
theorem getBalanceResult_filter_spec (denom : String) (result : BalancesResponse) :
    (denom = ("") → getBalanceResult denom result = result)
    ∧ (result.balances = none → getBalanceResult denom result = result)
    ∧ (∀ bs, denom ≠ ("") → result.balances = some bs →
        (getBalanceResult denom result).balances
          = some (bs.filter (fun b => b.denom == denom))
        ∧ (getBalanceResult denom result).pagination = result.pagination
        ∧ List.Sublist (bs.filter (fun b => b.denom == denom)) bs
        ∧ ∀ b, b ∈ bs.filter (fun b => b.denom == denom) ↔ (b ∈ bs ∧ b.denom = denom)) := by
  refine ⟨fun h => by simp [getBalanceResult, h], ?_, ?_⟩
  · intro h
    by_cases hd : denom = ("")
    · simp [getBalanceResult, hd]
    · simp [getBalanceResult, hd, h]
  · intro bs hd hb
    refine ⟨by simp [getBalanceResult, hd, hb], by simp [getBalanceResult, hd, hb],
      List.filter_sublist bs, ?_⟩
    intro b
    rw [List.mem_filter]
    simp

/-- Witness for C10 at a concrete filtered response. -/
theorem getBalanceResult_filter_witness :
    (("uscrt" : String) ≠ (""))
    ∧ (getBalanceResult ("uscrt")
        { balances := some [{ denom := ("uscrt"), amount := ("1") },
            { denom := ("atom"), amount := ("2") },
            { denom := ("uscrt"), amount := ("3") }],
          pagination := some ("p") }).balances
      = some [{ denom := ("uscrt"), amount := ("1") },
          { denom := ("uscrt"), amount := ("3") }] := by
  refine ⟨by decide, ?_⟩
  have h := (getBalanceResult_filter_spec ("uscrt")
    { balances := some [{ denom := ("uscrt"), amount := ("1") },
        { denom := ("atom"), amount := ("2") },
        { denom := ("uscrt"), amount := ("3") }],
      pagination := some ("p") }).2.2
    [{ denom := ("uscrt"), amount := ("1") }, { denom := ("atom"), amount := ("2") },
      { denom := ("uscrt"), amount := ("3") }] (by decide) rfl
  exact h.1.trans (by rfl)

end SecretNetworkNode
